import Mathlib

/-!
Shallow embedding of the GSC Performance Analysis Tool's analysis engine
(`gsc_analyzer.py`, class `GSCAnalyzer`) and proofs about it.

Conventions of the embedding:
* Python/pandas numbers are modelled by `ℚ` (the claims under study are about
  exact comparisons, sums and divisions by 100, not about float rounding).
* A raw table cell that is fed to `pd.to_numeric(..., errors='coerce')`
  is modelled by `Cell`: `missing` is a NaN/None cell (`isna` is true, the
  coercion yields NaN), `bad` is a non-numeric text cell (`isna` is false,
  the coercion yields NaN), `num q` is a cell whose numeric value is `q`
  (`isna` is false, the coercion yields `q`).  `.fillna(0)` then turns the
  NaN results into `0`, which is `cellNum` below.
* Python `a / b` on plain ints/floats raises `ZeroDivisionError` when
  `b == 0`; it is modelled by `pydiv` returning `Except`.  A pandas
  *Series* division never raises; the source always follows it with
  `.replace([inf, -inf], 0).fillna(0)`, so the composite is modelled
  directly as `if denominator = 0 then 0 else a / b`.
-/

namespace GSC

/-- The six canonical fields of the normalized schema. -/
inductive Field where
  | query | page | clicks | impressions | ctr | position
deriving DecidableEq, Repr

/-- Canonical column name of a field (the rename target in `prepare_data`). -/
def Field.name : Field → String
  | .query => "query"
  | .page => "page"
  | .clicks => "clicks"
  | .impressions => "impressions"
  | .ctr => "ctr"
  | .position => "position"

/-- Tests whether `n` is a prefix of the char list `h`. -/
def startsWithChars : List Char → List Char → Bool
  | [], _ => true
  | _ :: _, [] => false
  | a :: as, b :: bs => a == b && startsWithChars as bs

/-- Tests whether the char list `n` occurs contiguously inside `h`
(Python's `n in h` on strings). -/
def isSubstrChars (n : List Char) : List Char → Bool
  | [] => n.isEmpty
  | b :: bs => startsWithChars n (b :: bs) || isSubstrChars n bs

/-- Python `needle in hay` for strings. -/
def isSubstr (needle hay : String) : Bool :=
  isSubstrChars needle.toList hay.toList

/-- Python `s.lower()` (the column names in play are ASCII). -/
def lowerStr (s : String) : String :=
  ⟨s.toList.map Char.toLower⟩

/-- The `column_mapping` dict of `prepare_data`, in Python dict insertion
order (synonym, canonical field). -/
def column_mapping : List (String × Field) :=
  [("query", .query), ("keyword", .query),
   ("page", .page), ("landing page", .page), ("url", .page), ("address", .page),
   ("clicks", .clicks),
   ("impressions", .impressions),
   ("ctr", .ctr), ("url ctr", .ctr),
   ("position", .position), ("avg. pos", .position)]

/-- Column mapping of `prepare_data`: the column name is lower-cased, then
the synonyms are scanned in dict order and the first synonym that occurs as a
substring of the name decides the canonical field (`for key, value in
column_mapping.items(): if key.lower() in col: ...; break`); no match leaves
the column unmapped. -/
def mapColumn (name : String) : Option Field :=
  (column_mapping.find? (fun kv => isSubstr kv.1 (lowerStr name))).map (·.2)

/-! ### Schema check (`prepare_data`, lines 46-50)

After the rename, the DataFrame's columns are: the canonical name for every
column some synonym matched, otherwise the lower-cased original name.
`missing_cols = [col for col in required_cols if col not in self.df.columns]`
and a non-empty `missing_cols` raises `ValueError`. -/

/-- Embeds `required_cols` of `prepare_data` (all six canonical names). -/
def required_cols : List String :=
  ["query", "page", "clicks", "impressions", "ctr", "position"]

/-- The column labels after `self.df.rename(columns=rename_dict)`: mapped
columns get their canonical name, unmapped ones keep their lower-cased name. -/
def mappedCols (cols : List String) : List String :=
  cols.map (fun c => match mapColumn c with
    | some f => f.name
    | none => lowerStr c)

/-- Embeds `missing_cols` of `prepare_data`. -/
def missing_cols (cols : List String) : List String :=
  required_cols.filter (fun rc => decide (rc ∉ mappedCols cols))

/-- Holds exactly when `prepare_data` raises `ValueError`: `missing_cols` is
non-empty. -/
def schemaError (cols : List String) : Bool :=
  ¬ missing_cols cols = []

/-! ### Cell coercion and the normalized row -/

/-- A raw table cell as seen by `pd.to_numeric(..., errors='coerce')`:
`missing` = NaN/None cell, `bad` = non-numeric text, `num q` = a cell that
coerces to the number `q`. -/
inductive Cell where
  | missing | bad | num (q : ℚ)
deriving DecidableEq, Repr

/-- Embeds `pd.to_numeric(col, errors='coerce').fillna(0)` on one cell: NaN and
unparseable text become `0`. -/
def cellNum : Cell → ℚ
  | .missing => 0
  | .bad => 0
  | .num q => q

/-- Embeds `Series.isna()` on one cell: true only for NaN/None (a non-numeric text
cell is *not* na before coercion). -/
def Cell.isna : Cell → Bool
  | .missing => true
  | _ => false

/-- A raw input row, after the six canonical columns have been identified.
`query`/`page` cells are kept as-is by the source (no coercion), so they are
plain strings here. -/
structure RawRow where
  query : String
  page : String
  clicks : Cell
  impressions : Cell
  ctr : Cell
  position : Cell
deriving DecidableEq, Repr

/-- A normalized record (row of `self.df` after `prepare_data`). -/
structure Row where
  query : String
  page : String
  clicks : ℚ
  impressions : ℚ
  ctr : ℚ
  position : ℚ
deriving DecidableEq, Repr

/-! ### CTR derivation (`prepare_data`, lines 57-66) -/

/-- Embeds `self.df['ctr'].max() > 1` on the coerced column: pandas `max` of an
empty/all-NaN series is NaN and `NaN > 1` is false, otherwise the ordinary
maximum is compared with 1. -/
def ctrScaleCond (vals : List ℚ) : Bool :=
  match vals.maximum with
  | some m => decide (1 < m)
  | none => false

/-- The `ctr` column produced by lines 57-66 of `prepare_data`, one value per
input row (before deduplication): if the mapped ctr column is entirely na,
`ctr = clicks / impressions` with ±inf and NaN replaced by 0; otherwise the
column is coerced (`cellNum`) and, if its maximum exceeds 1, every value is
divided by 100.  (The `'ctr' not in self.df.columns` half of the source's
condition is unreachable here: line 50 has already raised if ctr was not
mapped.) -/
def ctrColumn (rawRows : List RawRow) : List ℚ :=
  if rawRows.all (fun r => r.ctr.isna) then
    rawRows.map (fun r =>
      let c := cellNum r.clicks
      let i := cellNum r.impressions
      if i = 0 then 0 else c / i)
  else
    let vals := rawRows.map (fun r => cellNum r.ctr)
    if ctrScaleCond vals then vals.map (fun v => v / 100) else vals

/-- Lines 52-66 of `prepare_data`: coerce `clicks`, `impressions`,
`position` (`cellNum`), and install the derived/rescaled `ctr` column. -/
def transform (rawRows : List RawRow) : List Row :=
  (rawRows.zip (ctrColumn rawRows)).map (fun rc =>
    { query := rc.1.query
      page := rc.1.page
      clicks := cellNum rc.1.clicks
      impressions := cellNum rc.1.impressions
      ctr := rc.2
      position := cellNum rc.1.position })

/-! ### Deduplication (`prepare_data`, line 69) -/

/-- The `(query, page)` key of `drop_duplicates(subset=['query', 'page'])`. -/
def rowKey (r : Row) : String × String := (r.query, r.page)

/-- Embeds `drop_duplicates(subset=['query', 'page'])` with the default
`keep='first'`: a row is dropped when an earlier row had the same key. -/
def dedupRows (seen : List (String × String)) : List Row → List Row
  | [] => []
  | r :: rs =>
    if rowKey r ∈ seen then dedupRows seen rs
    else r :: dedupRows (rowKey r :: seen) rs

/-- The row part of `prepare_data`: type coercions, ctr derivation, then
duplicate removal. -/
def prepareRows (rawRows : List RawRow) : List Row :=
  dedupRows [] (transform rawRows)

/-! ### Aggregation (`groupby(...).agg({'clicks': 'sum', 'impressions':
'sum', 'position': 'mean'}).reset_index()`)

`groupby` forms one group per distinct key value.  (pandas lists the groups
in sorted key order; we enumerate them in first-occurrence order, which no
statement below depends on.) -/

/-- The distinct values of a list, first occurrence first: a value is kept
when it has not been `seen` yet. -/
def distinctKeysAux (seen : List String) : List String → List String
  | [] => []
  | k :: ks =>
    if k ∈ seen then distinctKeysAux seen ks
    else k :: distinctKeysAux (k :: seen) ks

/-- The distinct values of a list, first occurrence first. -/
def distinctKeys (l : List String) : List String :=
  distinctKeysAux [] l

/-- One aggregated group: summed clicks and impressions, mean position. -/
structure Agg where
  key : String
  clicks : ℚ
  impressions : ℚ
  position : ℚ
deriving DecidableEq, Repr

/-- Embeds `df.groupby(keyOf).agg({'clicks': 'sum', 'impressions': 'sum',
'position': 'mean'})`: for each distinct key, sum the members' clicks and
impressions and average their positions.  (The member list of a key drawn
from `rows` is never empty, so the mean's denominator is never 0.) -/
def aggregateBy (keyOf : Row → String) (rows : List Row) : List Agg :=
  (distinctKeys (rows.map keyOf)).map (fun k =>
    let members := rows.filter (fun r => keyOf r = k)
    { key := k
      clicks := (members.map Row.clicks).sum
      impressions := (members.map Row.impressions).sum
      position := (members.map Row.position).sum / (members.length : ℚ) })

/-- Embeds `stats['ctr'] = (stats['clicks'] /
stats['impressions']).replace([np.inf, -np.inf], 0).fillna(0)`: the group
CTR, with a zero impression sum giving 0 instead of ±inf/NaN. -/
def aggCtr (g : Agg) : ℚ :=
  if g.impressions = 0 then 0 else g.clicks / g.impressions

/-- Embeds `query_stats` of `query_analysis`. -/
def queryStats (rows : List Row) : List Agg :=
  aggregateBy (fun r => r.query) rows

/-- Embeds `url_stats` of `url_analysis` / `url_performance_analysis`. -/
def pageStats (rows : List Row) : List Agg :=
  aggregateBy (fun r => r.page) rows

/-! ### Percentage arithmetic

The percentage computations divide plain Python ints, which raises
`ZeroDivisionError` when the denominator is 0 — there is no guard in the
source. -/

/-- Python `a / b` on numbers: raises `ZeroDivisionError` when `b == 0`. -/
def pydiv (a b : ℚ) : Except String ℚ :=
  if b = 0 then .error "ZeroDivisionError" else .ok (a / b)

/-- Embeds `(count / total) * 100` as the source writes every percentage. -/
def pctOf (count total : ℕ) : Except String ℚ := do
  let r ← pydiv (count : ℚ) (total : ℚ)
  return r * 100

/-! ### The filter predicates of `query_analysis` / `url_analysis`

Both analyses filter the aggregated stats with the same boolean masks
(e.g. `stats[(stats['clicks'] >= 100) & (stats['ctr'] < 0.01)]`); the
predicates are shared here as named functions. -/

/-- Embeds `stats['clicks'] > 0`. -/
def hasClicks (g : Agg) : Bool := decide (0 < g.clicks)

/-- Embeds `stats['impressions'] > 0`. -/
def hasImpressions (g : Agg) : Bool := decide (0 < g.impressions)

/-- Embeds `stats['clicks'] == 0`. -/
def noClicks (g : Agg) : Bool := decide (g.clicks = 0)

/-- Embeds `stats['impressions'] == 0`. -/
def noImpressions (g : Agg) : Bool := decide (g.impressions = 0)

/-- Embeds `(clicks >= 100) & (ctr < 0.01)`. -/
def lowCtr100clicks (g : Agg) : Bool := decide (100 ≤ g.clicks ∧ aggCtr g < 0.01)

/-- Embeds `(clicks >= 1000) & (ctr < 0.01)`. -/
def lowCtr1000clicks (g : Agg) : Bool := decide (1000 ≤ g.clicks ∧ aggCtr g < 0.01)

/-- Embeds `(impressions >= 100) & (ctr < 0.01)`. -/
def lowCtr100impr (g : Agg) : Bool := decide (100 ≤ g.impressions ∧ aggCtr g < 0.01)

/-- Embeds `(impressions >= 1000) & (ctr < 0.01)`. -/
def lowCtr1000impr (g : Agg) : Bool := decide (1000 ≤ g.impressions ∧ aggCtr g < 0.01)

/-- Embeds `(clicks >= 100) & (position >= 4) & (position <= 10)`. -/
def clicks100pos4to10 (g : Agg) : Bool :=
  decide (100 ≤ g.clicks ∧ 4 ≤ g.position ∧ g.position ≤ 10)

/-- Embeds `(clicks >= 100) & (position >= 11) & (position <= 20)`. -/
def clicks100pos11to20 (g : Agg) : Bool :=
  decide (100 ≤ g.clicks ∧ 11 ≤ g.position ∧ g.position ≤ 20)

/-- Embeds `(clicks >= 100) & (position >= 21)`. -/
def clicks100pos21plus (g : Agg) : Bool :=
  decide (100 ≤ g.clicks ∧ 21 ≤ g.position)

/-- Embeds `(clicks >= 1000) & (position >= 4) & (position <= 10)`. -/
def clicks1000pos4to10 (g : Agg) : Bool :=
  decide (1000 ≤ g.clicks ∧ 4 ≤ g.position ∧ g.position ≤ 10)

/-- Embeds `(clicks >= 1000) & (position >= 11) & (position <= 20)`. -/
def clicks1000pos11to20 (g : Agg) : Bool :=
  decide (1000 ≤ g.clicks ∧ 11 ≤ g.position ∧ g.position ≤ 20)

/-- Embeds `(clicks >= 1000) & (position >= 21)`. -/
def clicks1000pos21plus (g : Agg) : Bool :=
  decide (1000 ≤ g.clicks ∧ 21 ≤ g.position)

/-- Embeds `(impressions >= 100) & (position >= 4) & (position <= 10)`. -/
def impr100pos4to10 (g : Agg) : Bool :=
  decide (100 ≤ g.impressions ∧ 4 ≤ g.position ∧ g.position ≤ 10)

/-- Embeds `(impressions >= 100) & (position >= 11) & (position <= 20)`. -/
def impr100pos11to20 (g : Agg) : Bool :=
  decide (100 ≤ g.impressions ∧ 11 ≤ g.position ∧ g.position ≤ 20)

/-- Embeds `(impressions >= 100) & (position >= 21)`. -/
def impr100pos21plus (g : Agg) : Bool :=
  decide (100 ≤ g.impressions ∧ 21 ≤ g.position)

/-- Embeds `(impressions >= 1000) & (position >= 4) & (position <= 10)`. -/
def impr1000pos4to10 (g : Agg) : Bool :=
  decide (1000 ≤ g.impressions ∧ 4 ≤ g.position ∧ g.position ≤ 10)

/-- Embeds `(impressions >= 1000) & (position >= 11) & (position <= 20)`. -/
def impr1000pos11to20 (g : Agg) : Bool :=
  decide (1000 ≤ g.impressions ∧ 11 ≤ g.position ∧ g.position ≤ 20)

/-- Embeds `(impressions >= 1000) & (position >= 21)`. -/
def impr1000pos21plus (g : Agg) : Bool :=
  decide (1000 ≤ g.impressions ∧ 21 ≤ g.position)

/-! ### `query_analysis` -/

/-- The result dict of `query_analysis`, one field per key.  The final
`for key in list(results.keys())` loop adds a `pct_` twin for every
`queries_*` count; for the four presence counts it overwrites the
already-present percentage with the identical value, so those appear once
here. -/
structure QueryResults where
  total_queries : ℕ
  queries_with_clicks : ℕ
  queries_with_impressions : ℕ
  queries_without_clicks : ℕ
  queries_without_impressions : ℕ
  pct_queries_with_clicks : ℚ
  pct_queries_with_impressions : ℚ
  pct_queries_without_clicks : ℚ
  pct_queries_without_impressions : ℚ
  queries_100clicks_1pct_ctr : ℕ
  queries_1000clicks_1pct_ctr : ℕ
  queries_100impr_1pct_ctr : ℕ
  queries_1000impr_1pct_ctr : ℕ
  queries_100clicks_pos_4_10 : ℕ
  queries_100clicks_pos_11_20 : ℕ
  queries_100clicks_pos_21_plus : ℕ
  queries_1000clicks_pos_4_10 : ℕ
  queries_1000clicks_pos_11_20 : ℕ
  queries_1000clicks_pos_21_plus : ℕ
  queries_100impr_pos_4_10 : ℕ
  queries_100impr_pos_11_20 : ℕ
  queries_100impr_pos_21_plus : ℕ
  queries_1000impr_pos_4_10 : ℕ
  queries_1000impr_pos_11_20 : ℕ
  queries_1000impr_pos_21_plus : ℕ
  pct_queries_100clicks_1pct_ctr : ℚ
  pct_queries_1000clicks_1pct_ctr : ℚ
  pct_queries_100impr_1pct_ctr : ℚ
  pct_queries_1000impr_1pct_ctr : ℚ
  pct_queries_100clicks_pos_4_10 : ℚ
  pct_queries_100clicks_pos_11_20 : ℚ
  pct_queries_100clicks_pos_21_plus : ℚ
  pct_queries_1000clicks_pos_4_10 : ℚ
  pct_queries_1000clicks_pos_11_20 : ℚ
  pct_queries_1000clicks_pos_21_plus : ℚ
  pct_queries_100impr_pos_4_10 : ℚ
  pct_queries_100impr_pos_11_20 : ℚ
  pct_queries_100impr_pos_21_plus : ℚ
  pct_queries_1000impr_pos_4_10 : ℚ
  pct_queries_1000impr_pos_11_20 : ℚ
  pct_queries_1000impr_pos_21_plus : ℚ

set_option maxHeartbeats 1000000 in
/-- Embeds `query_analysis`: group by query, recompute the group CTR, then the
battery of counts and percentages.  The percentage divisions are plain
Python divisions by `total_queries` and raise `ZeroDivisionError` on an
empty aggregation. -/
def query_analysis (rows : List Row) : Except String QueryResults := do
  let qs := queryStats rows
  let total_queries := qs.length
  let queries_with_clicks := (qs.filter hasClicks).length
  let queries_with_impressions := (qs.filter hasImpressions).length
  let queries_without_clicks := (qs.filter noClicks).length
  let queries_without_impressions := (qs.filter noImpressions).length
  let pct_queries_with_clicks ← pctOf queries_with_clicks total_queries
  let pct_queries_with_impressions ← pctOf queries_with_impressions total_queries
  let pct_queries_without_clicks ← pctOf queries_without_clicks total_queries
  let pct_queries_without_impressions ← pctOf queries_without_impressions total_queries
  let queries_100clicks_1pct_ctr := (qs.filter lowCtr100clicks).length
  let queries_1000clicks_1pct_ctr := (qs.filter lowCtr1000clicks).length
  let queries_100impr_1pct_ctr := (qs.filter lowCtr100impr).length
  let queries_1000impr_1pct_ctr := (qs.filter lowCtr1000impr).length
  let queries_100clicks_pos_4_10 := (qs.filter clicks100pos4to10).length
  let queries_100clicks_pos_11_20 := (qs.filter clicks100pos11to20).length
  let queries_100clicks_pos_21_plus := (qs.filter clicks100pos21plus).length
  let queries_1000clicks_pos_4_10 := (qs.filter clicks1000pos4to10).length
  let queries_1000clicks_pos_11_20 := (qs.filter clicks1000pos11to20).length
  let queries_1000clicks_pos_21_plus := (qs.filter clicks1000pos21plus).length
  let queries_100impr_pos_4_10 := (qs.filter impr100pos4to10).length
  let queries_100impr_pos_11_20 := (qs.filter impr100pos11to20).length
  let queries_100impr_pos_21_plus := (qs.filter impr100pos21plus).length
  let queries_1000impr_pos_4_10 := (qs.filter impr1000pos4to10).length
  let queries_1000impr_pos_11_20 := (qs.filter impr1000pos11to20).length
  let queries_1000impr_pos_21_plus := (qs.filter impr1000pos21plus).length
  let pct_queries_100clicks_1pct_ctr ← pctOf queries_100clicks_1pct_ctr total_queries
  let pct_queries_1000clicks_1pct_ctr ← pctOf queries_1000clicks_1pct_ctr total_queries
  let pct_queries_100impr_1pct_ctr ← pctOf queries_100impr_1pct_ctr total_queries
  let pct_queries_1000impr_1pct_ctr ← pctOf queries_1000impr_1pct_ctr total_queries
  let pct_queries_100clicks_pos_4_10 ← pctOf queries_100clicks_pos_4_10 total_queries
  let pct_queries_100clicks_pos_11_20 ← pctOf queries_100clicks_pos_11_20 total_queries
  let pct_queries_100clicks_pos_21_plus ← pctOf queries_100clicks_pos_21_plus total_queries
  let pct_queries_1000clicks_pos_4_10 ← pctOf queries_1000clicks_pos_4_10 total_queries
  let pct_queries_1000clicks_pos_11_20 ← pctOf queries_1000clicks_pos_11_20 total_queries
  let pct_queries_1000clicks_pos_21_plus ← pctOf queries_1000clicks_pos_21_plus total_queries
  let pct_queries_100impr_pos_4_10 ← pctOf queries_100impr_pos_4_10 total_queries
  let pct_queries_100impr_pos_11_20 ← pctOf queries_100impr_pos_11_20 total_queries
  let pct_queries_100impr_pos_21_plus ← pctOf queries_100impr_pos_21_plus total_queries
  let pct_queries_1000impr_pos_4_10 ← pctOf queries_1000impr_pos_4_10 total_queries
  let pct_queries_1000impr_pos_11_20 ← pctOf queries_1000impr_pos_11_20 total_queries
  let pct_queries_1000impr_pos_21_plus ← pctOf queries_1000impr_pos_21_plus total_queries
  return {
    total_queries := total_queries
    queries_with_clicks := queries_with_clicks
    queries_with_impressions := queries_with_impressions
    queries_without_clicks := queries_without_clicks
    queries_without_impressions := queries_without_impressions
    pct_queries_with_clicks := pct_queries_with_clicks
    pct_queries_with_impressions := pct_queries_with_impressions
    pct_queries_without_clicks := pct_queries_without_clicks
    pct_queries_without_impressions := pct_queries_without_impressions
    queries_100clicks_1pct_ctr := queries_100clicks_1pct_ctr
    queries_1000clicks_1pct_ctr := queries_1000clicks_1pct_ctr
    queries_100impr_1pct_ctr := queries_100impr_1pct_ctr
    queries_1000impr_1pct_ctr := queries_1000impr_1pct_ctr
    queries_100clicks_pos_4_10 := queries_100clicks_pos_4_10
    queries_100clicks_pos_11_20 := queries_100clicks_pos_11_20
    queries_100clicks_pos_21_plus := queries_100clicks_pos_21_plus
    queries_1000clicks_pos_4_10 := queries_1000clicks_pos_4_10
    queries_1000clicks_pos_11_20 := queries_1000clicks_pos_11_20
    queries_1000clicks_pos_21_plus := queries_1000clicks_pos_21_plus
    queries_100impr_pos_4_10 := queries_100impr_pos_4_10
    queries_100impr_pos_11_20 := queries_100impr_pos_11_20
    queries_100impr_pos_21_plus := queries_100impr_pos_21_plus
    queries_1000impr_pos_4_10 := queries_1000impr_pos_4_10
    queries_1000impr_pos_11_20 := queries_1000impr_pos_11_20
    queries_1000impr_pos_21_plus := queries_1000impr_pos_21_plus
    pct_queries_100clicks_1pct_ctr := pct_queries_100clicks_1pct_ctr
    pct_queries_1000clicks_1pct_ctr := pct_queries_1000clicks_1pct_ctr
    pct_queries_100impr_1pct_ctr := pct_queries_100impr_1pct_ctr
    pct_queries_1000impr_1pct_ctr := pct_queries_1000impr_1pct_ctr
    pct_queries_100clicks_pos_4_10 := pct_queries_100clicks_pos_4_10
    pct_queries_100clicks_pos_11_20 := pct_queries_100clicks_pos_11_20
    pct_queries_100clicks_pos_21_plus := pct_queries_100clicks_pos_21_plus
    pct_queries_1000clicks_pos_4_10 := pct_queries_1000clicks_pos_4_10
    pct_queries_1000clicks_pos_11_20 := pct_queries_1000clicks_pos_11_20
    pct_queries_1000clicks_pos_21_plus := pct_queries_1000clicks_pos_21_plus
    pct_queries_100impr_pos_4_10 := pct_queries_100impr_pos_4_10
    pct_queries_100impr_pos_11_20 := pct_queries_100impr_pos_11_20
    pct_queries_100impr_pos_21_plus := pct_queries_100impr_pos_21_plus
    pct_queries_1000impr_pos_4_10 := pct_queries_1000impr_pos_4_10
    pct_queries_1000impr_pos_11_20 := pct_queries_1000impr_pos_11_20
    pct_queries_1000impr_pos_21_plus := pct_queries_1000impr_pos_21_plus }

/-! ### `url_analysis`

Identical to `query_analysis` with the page dimension and `urls_*` keys. -/

/-- The result dict of `url_analysis`, one field per key (same remark as for
`QueryResults` about the overwritten presence percentages). -/
structure UrlResults where
  total_urls : ℕ
  urls_with_clicks : ℕ
  urls_with_impressions : ℕ
  urls_without_clicks : ℕ
  urls_without_impressions : ℕ
  pct_urls_with_clicks : ℚ
  pct_urls_with_impressions : ℚ
  pct_urls_without_clicks : ℚ
  pct_urls_without_impressions : ℚ
  urls_100clicks_1pct_ctr : ℕ
  urls_1000clicks_1pct_ctr : ℕ
  urls_100impr_1pct_ctr : ℕ
  urls_1000impr_1pct_ctr : ℕ
  urls_100clicks_pos_4_10 : ℕ
  urls_100clicks_pos_11_20 : ℕ
  urls_100clicks_pos_21_plus : ℕ
  urls_1000clicks_pos_4_10 : ℕ
  urls_1000clicks_pos_11_20 : ℕ
  urls_1000clicks_pos_21_plus : ℕ
  urls_100impr_pos_4_10 : ℕ
  urls_100impr_pos_11_20 : ℕ
  urls_100impr_pos_21_plus : ℕ
  urls_1000impr_pos_4_10 : ℕ
  urls_1000impr_pos_11_20 : ℕ
  urls_1000impr_pos_21_plus : ℕ
  pct_urls_100clicks_1pct_ctr : ℚ
  pct_urls_1000clicks_1pct_ctr : ℚ
  pct_urls_100impr_1pct_ctr : ℚ
  pct_urls_1000impr_1pct_ctr : ℚ
  pct_urls_100clicks_pos_4_10 : ℚ
  pct_urls_100clicks_pos_11_20 : ℚ
  pct_urls_100clicks_pos_21_plus : ℚ
  pct_urls_1000clicks_pos_4_10 : ℚ
  pct_urls_1000clicks_pos_11_20 : ℚ
  pct_urls_1000clicks_pos_21_plus : ℚ
  pct_urls_100impr_pos_4_10 : ℚ
  pct_urls_100impr_pos_11_20 : ℚ
  pct_urls_100impr_pos_21_plus : ℚ
  pct_urls_1000impr_pos_4_10 : ℚ
  pct_urls_1000impr_pos_11_20 : ℚ
  pct_urls_1000impr_pos_21_plus : ℚ

set_option maxHeartbeats 1000000 in
/-- Embeds `url_analysis`: group by page, recompute the group CTR, then the same
battery of counts and percentages as `query_analysis`.  The percentage
divisions are plain Python divisions by `total_urls` and raise
`ZeroDivisionError` on an empty aggregation. -/
def url_analysis (rows : List Row) : Except String UrlResults := do
  let us := pageStats rows
  let total_urls := us.length
  let urls_with_clicks := (us.filter hasClicks).length
  let urls_with_impressions := (us.filter hasImpressions).length
  let urls_without_clicks := (us.filter noClicks).length
  let urls_without_impressions := (us.filter noImpressions).length
  let pct_urls_with_clicks ← pctOf urls_with_clicks total_urls
  let pct_urls_with_impressions ← pctOf urls_with_impressions total_urls
  let pct_urls_without_clicks ← pctOf urls_without_clicks total_urls
  let pct_urls_without_impressions ← pctOf urls_without_impressions total_urls
  let urls_100clicks_1pct_ctr := (us.filter lowCtr100clicks).length
  let urls_1000clicks_1pct_ctr := (us.filter lowCtr1000clicks).length
  let urls_100impr_1pct_ctr := (us.filter lowCtr100impr).length
  let urls_1000impr_1pct_ctr := (us.filter lowCtr1000impr).length
  let urls_100clicks_pos_4_10 := (us.filter clicks100pos4to10).length
  let urls_100clicks_pos_11_20 := (us.filter clicks100pos11to20).length
  let urls_100clicks_pos_21_plus := (us.filter clicks100pos21plus).length
  let urls_1000clicks_pos_4_10 := (us.filter clicks1000pos4to10).length
  let urls_1000clicks_pos_11_20 := (us.filter clicks1000pos11to20).length
  let urls_1000clicks_pos_21_plus := (us.filter clicks1000pos21plus).length
  let urls_100impr_pos_4_10 := (us.filter impr100pos4to10).length
  let urls_100impr_pos_11_20 := (us.filter impr100pos11to20).length
  let urls_100impr_pos_21_plus := (us.filter impr100pos21plus).length
  let urls_1000impr_pos_4_10 := (us.filter impr1000pos4to10).length
  let urls_1000impr_pos_11_20 := (us.filter impr1000pos11to20).length
  let urls_1000impr_pos_21_plus := (us.filter impr1000pos21plus).length
  let pct_urls_100clicks_1pct_ctr ← pctOf urls_100clicks_1pct_ctr total_urls
  let pct_urls_1000clicks_1pct_ctr ← pctOf urls_1000clicks_1pct_ctr total_urls
  let pct_urls_100impr_1pct_ctr ← pctOf urls_100impr_1pct_ctr total_urls
  let pct_urls_1000impr_1pct_ctr ← pctOf urls_1000impr_1pct_ctr total_urls
  let pct_urls_100clicks_pos_4_10 ← pctOf urls_100clicks_pos_4_10 total_urls
  let pct_urls_100clicks_pos_11_20 ← pctOf urls_100clicks_pos_11_20 total_urls
  let pct_urls_100clicks_pos_21_plus ← pctOf urls_100clicks_pos_21_plus total_urls
  let pct_urls_1000clicks_pos_4_10 ← pctOf urls_1000clicks_pos_4_10 total_urls
  let pct_urls_1000clicks_pos_11_20 ← pctOf urls_1000clicks_pos_11_20 total_urls
  let pct_urls_1000clicks_pos_21_plus ← pctOf urls_1000clicks_pos_21_plus total_urls
  let pct_urls_100impr_pos_4_10 ← pctOf urls_100impr_pos_4_10 total_urls
  let pct_urls_100impr_pos_11_20 ← pctOf urls_100impr_pos_11_20 total_urls
  let pct_urls_100impr_pos_21_plus ← pctOf urls_100impr_pos_21_plus total_urls
  let pct_urls_1000impr_pos_4_10 ← pctOf urls_1000impr_pos_4_10 total_urls
  let pct_urls_1000impr_pos_11_20 ← pctOf urls_1000impr_pos_11_20 total_urls
  let pct_urls_1000impr_pos_21_plus ← pctOf urls_1000impr_pos_21_plus total_urls
  return {
    total_urls := total_urls
    urls_with_clicks := urls_with_clicks
    urls_with_impressions := urls_with_impressions
    urls_without_clicks := urls_without_clicks
    urls_without_impressions := urls_without_impressions
    pct_urls_with_clicks := pct_urls_with_clicks
    pct_urls_with_impressions := pct_urls_with_impressions
    pct_urls_without_clicks := pct_urls_without_clicks
    pct_urls_without_impressions := pct_urls_without_impressions
    urls_100clicks_1pct_ctr := urls_100clicks_1pct_ctr
    urls_1000clicks_1pct_ctr := urls_1000clicks_1pct_ctr
    urls_100impr_1pct_ctr := urls_100impr_1pct_ctr
    urls_1000impr_1pct_ctr := urls_1000impr_1pct_ctr
    urls_100clicks_pos_4_10 := urls_100clicks_pos_4_10
    urls_100clicks_pos_11_20 := urls_100clicks_pos_11_20
    urls_100clicks_pos_21_plus := urls_100clicks_pos_21_plus
    urls_1000clicks_pos_4_10 := urls_1000clicks_pos_4_10
    urls_1000clicks_pos_11_20 := urls_1000clicks_pos_11_20
    urls_1000clicks_pos_21_plus := urls_1000clicks_pos_21_plus
    urls_100impr_pos_4_10 := urls_100impr_pos_4_10
    urls_100impr_pos_11_20 := urls_100impr_pos_11_20
    urls_100impr_pos_21_plus := urls_100impr_pos_21_plus
    urls_1000impr_pos_4_10 := urls_1000impr_pos_4_10
    urls_1000impr_pos_11_20 := urls_1000impr_pos_11_20
    urls_1000impr_pos_21_plus := urls_1000impr_pos_21_plus
    pct_urls_100clicks_1pct_ctr := pct_urls_100clicks_1pct_ctr
    pct_urls_1000clicks_1pct_ctr := pct_urls_1000clicks_1pct_ctr
    pct_urls_100impr_1pct_ctr := pct_urls_100impr_1pct_ctr
    pct_urls_1000impr_1pct_ctr := pct_urls_1000impr_1pct_ctr
    pct_urls_100clicks_pos_4_10 := pct_urls_100clicks_pos_4_10
    pct_urls_100clicks_pos_11_20 := pct_urls_100clicks_pos_11_20
    pct_urls_100clicks_pos_21_plus := pct_urls_100clicks_pos_21_plus
    pct_urls_1000clicks_pos_4_10 := pct_urls_1000clicks_pos_4_10
    pct_urls_1000clicks_pos_11_20 := pct_urls_1000clicks_pos_11_20
    pct_urls_1000clicks_pos_21_plus := pct_urls_1000clicks_pos_21_plus
    pct_urls_100impr_pos_4_10 := pct_urls_100impr_pos_4_10
    pct_urls_100impr_pos_11_20 := pct_urls_100impr_pos_11_20
    pct_urls_100impr_pos_21_plus := pct_urls_100impr_pos_21_plus
    pct_urls_1000impr_pos_4_10 := pct_urls_1000impr_pos_4_10
    pct_urls_1000impr_pos_11_20 := pct_urls_1000impr_pos_11_20
    pct_urls_1000impr_pos_21_plus := pct_urls_1000impr_pos_21_plus }

/-! ### `url_performance_analysis` -/

/-- The `thresholds` dict. -/
structure Thresholds where
  top : ℚ
  good : ℚ
  weak : ℚ
deriving DecidableEq, Repr

/-- The default thresholds of `url_performance_analysis`
(`{'top': 1000, 'good': 100, 'weak': 10}`). -/
def defaultThresholds : Thresholds := { top := 1000, good := 100, weak := 10 }

/-- Embeds `top_urls = url_stats[url_stats['clicks'] >= thresholds['top']]`. -/
def topUrls (ths : Thresholds) (stats : List Agg) : List Agg :=
  stats.filter (fun g => decide (ths.top ≤ g.clicks))

/-- Embeds `good_urls`: `clicks >= thresholds['good']` and `clicks < thresholds['top']`. -/
def goodUrls (ths : Thresholds) (stats : List Agg) : List Agg :=
  stats.filter (fun g => decide (ths.good ≤ g.clicks ∧ g.clicks < ths.top))

/-- Embeds `weak_urls`: `clicks >= thresholds['weak']` and `clicks < thresholds['good']`. -/
def weakUrls (ths : Thresholds) (stats : List Agg) : List Agg :=
  stats.filter (fun g => decide (ths.weak ≤ g.clicks ∧ g.clicks < ths.good))

/-- Embeds `dead_urls = url_stats[url_stats['clicks'] == 0]`. -/
def deadUrls (stats : List Agg) : List Agg :=
  stats.filter (fun g => decide (g.clicks = 0))

/-- Embeds `opportunity_urls`: `clicks == 0` and `impressions > 0`. -/
def opportunityUrls (stats : List Agg) : List Agg :=
  stats.filter (fun g => decide (g.clicks = 0 ∧ 0 < g.impressions))

/-- The result dict of `url_performance_analysis`: counts, member lists and
percentages for the five categories. -/
structure PerfResults where
  total_urls : ℕ
  top_urls_count : ℕ
  good_urls_count : ℕ
  weak_urls_count : ℕ
  dead_urls_count : ℕ
  opportunity_urls_count : ℕ
  top_urls : List Agg
  good_urls : List Agg
  weak_urls : List Agg
  dead_urls : List Agg
  opportunity_urls : List Agg
  pct_top_urls : ℚ
  pct_good_urls : ℚ
  pct_weak_urls : ℚ
  pct_dead_urls : ℚ
  pct_opportunity_urls : ℚ

/-- Embeds `url_performance_analysis(thresholds)`: group by page, slice the
aggregation into the five categories, then compute a percentage of
`total_urls` for each count (plain Python division, so it raises
`ZeroDivisionError` when `total_urls == 0`). -/
def url_performance_analysis (ths : Thresholds) (rows : List Row) :
    Except String PerfResults := do
  let url_stats := pageStats rows
  let total_urls := url_stats.length
  let tops := topUrls ths url_stats
  let goods := goodUrls ths url_stats
  let weaks := weakUrls ths url_stats
  let deads := deadUrls url_stats
  let opps := opportunityUrls url_stats
  let pct_top_urls ← pctOf tops.length total_urls
  let pct_good_urls ← pctOf goods.length total_urls
  let pct_weak_urls ← pctOf weaks.length total_urls
  let pct_dead_urls ← pctOf deads.length total_urls
  let pct_opportunity_urls ← pctOf opps.length total_urls
  return {
    total_urls := total_urls
    top_urls_count := tops.length
    good_urls_count := goods.length
    weak_urls_count := weaks.length
    dead_urls_count := deads.length
    opportunity_urls_count := opps.length
    top_urls := tops
    good_urls := goods
    weak_urls := weaks
    dead_urls := deads
    opportunity_urls := opps
    pct_top_urls := pct_top_urls
    pct_good_urls := pct_good_urls
    pct_weak_urls := pct_weak_urls
    pct_dead_urls := pct_dead_urls
    pct_opportunity_urls := pct_opportunity_urls }

/-! ### `generate_insights` -/

/-- The three recommendation sentences, with the interpolated number (the
`{...:.1f}`/`{count}` rendering of the surrounding f-string is
presentation). -/
inductive Recommendation where
  /-- Message "High opportunity: {pct}% of URLs have impressions but no clicks.
  Focus on improving CTR." -/
  | highOpportunity (pct : ℚ)
  /-- Message "Found {count} queries with 100+ clicks but <1% CTR.  Review meta
  titles and descriptions." -/
  | lowCtrQueries (count : ℕ)
  /-- Message "{pct}% of URLs are dead.  Consider content pruning or technical SEO
  improvements." -/
  | deadUrls (pct : ℚ)
deriving DecidableEq, Repr

/-- The `insights` dict of `generate_insights` (nested dicts flattened into
one structure, field names following the nested keys). -/
structure Insights where
  high_potential_queries : ℕ
  low_ctr_high_click_queries : ℕ
  position_pos_4_10 : ℕ
  position_pos_11_20 : ℕ
  position_pos_21_plus : ℕ
  dist_top_urls : ℚ
  dist_good_urls : ℚ
  dist_weak_urls : ℚ
  dist_dead_urls : ℚ
  dist_opportunity_urls : ℚ
  low_ctr_high_click_urls : ℕ
  recommendations : List Recommendation

/-- Embeds `generate_insights`: run the three analyses (the performance one with
its default thresholds), assemble the insight numbers, then append the
three rule-based recommendations in fixed order when their conditions
hold. -/
def generate_insights (rows : List Row) : Except String Insights := do
  let query_results ← query_analysis rows
  let url_results ← url_analysis rows
  let performance_results ← url_performance_analysis defaultThresholds rows
  let recommendations :=
    (if 10 < performance_results.pct_opportunity_urls then
      [Recommendation.highOpportunity performance_results.pct_opportunity_urls]
    else []) ++
    (if 0 < query_results.queries_100clicks_1pct_ctr then
      [Recommendation.lowCtrQueries query_results.queries_100clicks_1pct_ctr]
    else []) ++
    (if 20 < performance_results.pct_dead_urls then
      [Recommendation.deadUrls performance_results.pct_dead_urls]
    else [])
  return {
    high_potential_queries := query_results.queries_100impr_1pct_ctr
    low_ctr_high_click_queries := query_results.queries_100clicks_1pct_ctr
    position_pos_4_10 := query_results.queries_100clicks_pos_4_10
    position_pos_11_20 := query_results.queries_100clicks_pos_11_20
    position_pos_21_plus := query_results.queries_100clicks_pos_21_plus
    dist_top_urls := performance_results.pct_top_urls
    dist_good_urls := performance_results.pct_good_urls
    dist_weak_urls := performance_results.pct_weak_urls
    dist_dead_urls := performance_results.pct_dead_urls
    dist_opportunity_urls := performance_results.pct_opportunity_urls
    low_ctr_high_click_urls := url_results.urls_100clicks_1pct_ctr
    recommendations := recommendations }

/-! ## Concrete sample tables used in the theorems below -/

/-- Scenario A row: `("shoe", "p1", 150, 12500, 0.012, 3.2)`. -/
def sampleShoe : RawRow :=
  { query := "shoe", page := "p1", clicks := .num 150, impressions := .num 12500,
    ctr := .num 0.012, position := .num 3.2 }

/-- Scenario C rows: ctr column `[1.2, 3.4]`. -/
def sampleCtrA : RawRow :=
  { query := "a", page := "p1", clicks := .num 1, impressions := .num 100,
    ctr := .num 1.2, position := .num 1 }

/-- Scenario C rows: ctr column `[1.2, 3.4]`. -/
def sampleCtrB : RawRow :=
  { query := "b", page := "p2", clicks := .num 1, impressions := .num 100,
    ctr := .num 3.4, position := .num 1 }

/-- A raw row whose clicks cell parses to `-5`. -/
def sampleNeg : RawRow :=
  { query := "a", page := "p", clicks := .num (-5), impressions := .num 2,
    ctr := .missing, position := .num 1 }

/-- A well-behaved raw row (clicks 2 ≤ impressions 4, ctr 0.5, position 3). -/
def sampleOk : RawRow :=
  { query := "a", page := "p", clicks := .num 2, impressions := .num 4,
    ctr := .num 0.5, position := .num 3 }

/-- A normalized row with `0 < clicks = 5 < weak = 10` under the default
thresholds. -/
def rowFewClicks : Row :=
  { query := "q", page := "p", clicks := 5, impressions := 10, ctr := 0.5, position := 1 }

/-- A normalized row with more clicks than impressions. -/
def rowOverCtr : Row :=
  { query := "q", page := "p", clicks := 5, impressions := 2, ctr := 0, position := 1 }

/-- A normalized row with clicks 1 of impressions 2. -/
def rowUnit : Row :=
  { query := "q", page := "p", clicks := 1, impressions := 2, ctr := 0.5, position := 1 }

/-- Scenario D row: a page with `clicks = 0` and `impressions = 500`. -/
def rowDeadOpp : Row :=
  { query := "q", page := "pD", clicks := 0, impressions := 500, ctr := 0, position := 1 }

/-- The aggregated group of the one-row table `[rowDeadOpp]`. -/
def aggDeadOpp : Agg :=
  { key := "pD", clicks := 0, impressions := 500, position := 1 }

/-! ## Infrastructure lemmas -/

theorem startsWithChars_iff (n : List Char) :
    ∀ h : List Char, startsWithChars n h = true ↔ ∃ t, h = n ++ t := by
  induction n with
  | nil =>
    intro h
    simp [startsWithChars]
  | cons a as ih =>
    intro h
    cases h with
    | nil =>
      simp [startsWithChars]
    | cons b bs =>
      simp only [startsWithChars, Bool.and_eq_true, beq_iff_eq, ih bs, List.cons_append,
        List.cons.injEq]
      constructor
      · rintro ⟨rfl, t, rfl⟩
        exact ⟨t, rfl, rfl⟩
      · rintro ⟨t, rfl, rfl⟩
        exact ⟨rfl, t, rfl⟩

theorem isSubstrChars_iff (n : List Char) :
    ∀ h : List Char, isSubstrChars n h = true ↔ ∃ l r, h = l ++ (n ++ r) := by
  intro h
  induction h with
  | nil =>
    simp only [isSubstrChars, List.isEmpty_iff]
    constructor
    · rintro rfl
      exact ⟨[], [], rfl⟩
    · rintro ⟨l, r, hl⟩
      cases l <;> cases n <;> simp_all
  | cons b bs ih =>
    simp only [isSubstrChars, Bool.or_eq_true, startsWithChars_iff, ih]
    constructor
    · rintro (⟨t, ht⟩ | ⟨l, r, rfl⟩)
      · exact ⟨[], t, by simpa using ht⟩
      · exact ⟨b :: l, r, rfl⟩
    · rintro ⟨l, r, hl⟩
      cases l with
      | nil =>
        exact Or.inl ⟨r, by simpa using hl⟩
      | cons x xs =>
        simp only [List.cons_append, List.cons.injEq] at hl
        exact Or.inr ⟨xs, r, hl.2⟩

theorem isSubstrChars_of_middle {x y z h : List Char}
    (hx : isSubstrChars (x ++ y ++ z) h = true) : isSubstrChars y h = true := by
  rw [isSubstrChars_iff] at hx ⊢
  obtain ⟨l, r, rfl⟩ := hx
  exact ⟨l ++ x, z ++ r, by simp⟩

/-! ## The column mapper seen as a per-field search (claim C8)

The spec describes the mapping field-by-field: the column goes to the first
canonical field one of whose synonyms occurs in the name.  The source scans
the flat synonym list; since that list groups the synonyms of each field
contiguously and in the same field order, the two descriptions agree. -/

/-- Modelled from the spec (§4.1 step 2): the synonym set of each canonical
field, in the documented order. -/
def fieldSynonyms : Field → List String
  | .query => ["query", "keyword"]
  | .page => ["page", "landing page", "url", "address"]
  | .clicks => ["clicks"]
  | .impressions => ["impressions"]
  | .ctr => ["ctr", "url ctr"]
  | .position => ["position", "avg. pos"]

/-- Modelled from the spec (§4.1 step 2): the documented field order. -/
def fieldOrder : List Field :=
  [.query, .page, .clicks, .impressions, .ctr, .position]

/-- Modelled from the spec (§4.1 step 2): assign the column to the first
canonical field whose synonym set contains a substring of the lower-cased
name. -/
def specMapColumn (name : String) : Option Field :=
  fieldOrder.find? (fun f => (fieldSynonyms f).any (fun s => isSubstr s (lowerStr name)))

theorem find?_synonym_group (f : Field) (t : String) :
    ∀ (syns : List String) (rest : List (String × Field)),
    ((((syns.map (fun s => (s, f))) ++ rest).find? (fun kv => isSubstr kv.1 t)).map (·.2))
      = if syns.any (fun s => isSubstr s t) then some f
        else ((rest.find? (fun kv => isSubstr kv.1 t)).map (·.2)) := by
  intro syns
  induction syns with
  | nil => intro rest; simp
  | cons s ss ih =>
    intro rest
    simp only [List.map_cons, List.cons_append, List.any_cons]
    by_cases hs : isSubstr s t = true
    · rw [List.find?_cons_of_pos _ (by simpa using hs)]
      simp [hs]
    · have hs' : isSubstr s t = false := by simpa using hs
      rw [List.find?_cons_of_neg _ (by simp [hs'])]
      simp only [hs', Bool.false_or]
      exact ih rest

theorem mapColumn_eq_specMapColumn (name : String) :
    mapColumn name = specMapColumn name := by
  have hflat : column_mapping
      = (["query", "keyword"].map (fun s => (s, Field.query)))
        ++ ((["page", "landing page", "url", "address"].map (fun s => (s, Field.page)))
        ++ ((["clicks"].map (fun s => (s, Field.clicks)))
        ++ ((["impressions"].map (fun s => (s, Field.impressions)))
        ++ ((["ctr", "url ctr"].map (fun s => (s, Field.ctr)))
        ++ ((["position", "avg. pos"].map (fun s => (s, Field.position)))
        ++ []))))) := by rfl
  rw [mapColumn, hflat]
  rw [find?_synonym_group, find?_synonym_group, find?_synonym_group,
    find?_synonym_group, find?_synonym_group, find?_synonym_group]
  simp only [specMapColumn, fieldOrder, fieldSynonyms, List.find?_cons]
  by_cases h1 : (["query", "keyword"].any (fun s => isSubstr s (lowerStr name))) = true <;>
    by_cases h2 : (["page", "landing page", "url", "address"].any
      (fun s => isSubstr s (lowerStr name))) = true <;>
    by_cases h3 : (["clicks"].any (fun s => isSubstr s (lowerStr name))) = true <;>
    by_cases h4 : (["impressions"].any (fun s => isSubstr s (lowerStr name))) = true <;>
    by_cases h5 : (["ctr", "url ctr"].any (fun s => isSubstr s (lowerStr name))) = true <;>
    by_cases h6 : (["position", "avg. pos"].any (fun s => isSubstr s (lowerStr name))) = true <;>
    simp [h1, h2, h3, h4, h5, h6]

/-! ## Canonical names and the schema check (claim C1) -/

theorem Field.name_injective : ∀ f g : Field, f.name = g.name → f = g := by
  intro f g
  cases f <;> cases g <;> decide

theorem mapColumn_isSome_of_lower_canonical (c : String) (f : Field)
    (h : lowerStr c = f.name) : mapColumn c ≠ none := by
  cases f <;>
    · simp only [mapColumn, Field.name] at h ⊢
      rw [h]
      decide

theorem name_mem_mappedCols_iff (cols : List String) (f : Field) :
    f.name ∈ mappedCols cols ↔ ∃ c ∈ cols, mapColumn c = some f := by
  simp only [mappedCols, List.mem_map]
  constructor
  · rintro ⟨c, hc, hmatch⟩
    cases hm : mapColumn c with
    | some g =>
      rw [hm] at hmatch
      simp only at hmatch
      rw [Field.name_injective g f hmatch] at hm
      exact ⟨c, hc, hm⟩
    | none =>
      rw [hm] at hmatch
      simp only at hmatch
      exact absurd hm (mapColumn_isSome_of_lower_canonical c f hmatch)
  · rintro ⟨c, hc, hm⟩
    exact ⟨c, hc, by rw [hm]⟩

/-! ## Substring consequences of the flat synonym scan (claim C10) -/

theorem isSubstr_url_of_urlctr (t : String) (h : isSubstr "url ctr" t = true) :
    isSubstr "url" t = true := by
  have he : ("url ctr".toList : List Char)
      = ([] : List Char) ++ ("url".toList : List Char) ++ (" ctr".toList : List Char) := by
    decide
  simp only [isSubstr] at h ⊢
  rw [he] at h
  exact isSubstrChars_of_middle h

theorem isSubstr_ctr_of_urlctr (t : String) (h : isSubstr "url ctr" t = true) :
    isSubstr "ctr" t = true := by
  have he : ("url ctr".toList : List Char)
      = ("url ".toList : List Char) ++ ("ctr".toList : List Char) ++ ([] : List Char) := by
    decide
  simp only [isSubstr] at h ⊢
  rw [he] at h
  exact isSubstrChars_of_middle h

/-! ## Claim C1 -/

/-- C1, counterexample: a table carrying exactly the four columns `query`,
`page`, `clicks`, `impressions` (all four canonical columns of the claim
present and correctly mapped) still makes `prepare_data` raise: the source
also requires `ctr` and `position`. -/
theorem C1_counterexample :
    schemaError ["query", "page", "clicks", "impressions"] = true ∧
    mapColumn "query" = some Field.query ∧
    mapColumn "page" = some Field.page ∧
    mapColumn "clicks" = some Field.clicks ∧
    mapColumn "impressions" = some Field.impressions := by
  decide

/-- C1, amended: normalization fails with the schema error exactly when at
least one of the SIX canonical columns (`query`, `page`, `clicks`,
`impressions`, `ctr`, `position`) is still missing after column mapping —
equivalently, it succeeds iff every canonical field is matched by some
input column. -/
theorem C1_theorem (cols : List String) :
    schemaError cols = false ↔ ∀ f : Field, ∃ c ∈ cols, mapColumn c = some f := by
  have hmiss : missing_cols cols = [] ↔ ∀ f : Field, ∃ c ∈ cols, mapColumn c = some f := by
    rw [missing_cols, List.filter_eq_nil_iff]
    constructor
    · intro h f
      have hmem : f.name ∈ mappedCols cols := by
        have hf := h f.name (by cases f <;> simp [required_cols, Field.name])
        simpa using hf
      exact (name_mem_mappedCols_iff cols f).mp hmem
    · intro h rc hrc
      simp only [required_cols, List.mem_cons, List.not_mem_nil, or_false] at hrc
      have hgoal : ∀ f : Field, ¬ decide (f.name ∉ mappedCols cols) = true := by
        intro f
        simp only [decide_eq_true_eq, Decidable.not_not]
        exact (name_mem_mappedCols_iff cols f).mpr (h f)
      rcases hrc with rfl | rfl | rfl | rfl | rfl | rfl
      · exact hgoal Field.query
      · exact hgoal Field.page
      · exact hgoal Field.clicks
      · exact hgoal Field.impressions
      · exact hgoal Field.ctr
      · exact hgoal Field.position
  rw [← hmiss, schemaError]
  simp

/-- C1, witness: the six-column canonical header passes the schema check. -/
theorem C1_witness :
    schemaError ["query", "page", "clicks", "impressions", "ctr", "position"] = false :=
  (C1_theorem _).mpr (by
    intro f
    cases f
    · exact ⟨"query", by decide, by decide⟩
    · exact ⟨"page", by decide, by decide⟩
    · exact ⟨"clicks", by decide, by decide⟩
    · exact ⟨"impressions", by decide, by decide⟩
    · exact ⟨"ctr", by decide, by decide⟩
    · exact ⟨"position", by decide, by decide⟩)

/-! ## Claim C8 -/

/-- C8: the source's flat first-match synonym scan coincides with the
spec's field-by-field description (first canonical field, in documented
order, one of whose synonyms is a substring of the lower-cased name wins;
no match leaves the column unmapped), and the two scenario columns map as
documented. -/
theorem C8_theorem :
    (∀ name : String, mapColumn name = specMapColumn name) ∧
    mapColumn "Landing Page" = some Field.page ∧
    mapColumn "Avg. Pos" = some Field.position := by
  refine ⟨mapColumn_eq_specMapColumn, by decide, by decide⟩

/-- C8, witness: the refinement evaluated at the scenario column. -/
theorem C8_witness : mapColumn "Landing Page" = specMapColumn "Landing Page" :=
  C8_theorem.1 "Landing Page"

/-! ## Claim C10 -/

/-- C10, counterexample: the column `"query url"` contains the substring
`"url"` but is mapped to `query`, not to `page` — the claim's "every column
containing url maps to page" fails when an earlier synonym (`query`,
`keyword`) also occurs. -/
theorem C10_counterexample :
    isSubstr "url" (lowerStr "query url") = true ∧
    mapColumn "query url" = some Field.query ∧
    ¬ mapColumn "query url" = some Field.page := by
  decide

/-- C10, amended: a column containing `"url"` is never mapped to `ctr`, and
is mapped to `page` provided neither `"query"` nor `"keyword"` occurs in it
(`"URL CTR"` in particular maps to `page`); conversely a column is mapped
to `ctr` only when it contains `"ctr"` and none of the eight synonyms
preceding `"ctr"` in the scan order. -/
theorem C10_theorem :
    (∀ name : String, isSubstr "url" (lowerStr name) = true →
      ¬ mapColumn name = some Field.ctr ∧
      (isSubstr "query" (lowerStr name) = false → isSubstr "keyword" (lowerStr name) = false →
        mapColumn name = some Field.page)) ∧
    mapColumn "URL CTR" = some Field.page ∧
    (∀ name : String, mapColumn name = some Field.ctr →
      isSubstr "ctr" (lowerStr name) = true ∧
      isSubstr "query" (lowerStr name) = false ∧
      isSubstr "keyword" (lowerStr name) = false ∧
      isSubstr "page" (lowerStr name) = false ∧
      isSubstr "landing page" (lowerStr name) = false ∧
      isSubstr "url" (lowerStr name) = false ∧
      isSubstr "address" (lowerStr name) = false ∧
      isSubstr "clicks" (lowerStr name) = false ∧
      isSubstr "impressions" (lowerStr name) = false) := by
  refine ⟨?_, by decide, ?_⟩
  · intro name hurl
    have hpage : ((fieldSynonyms Field.page).any
        (fun s => isSubstr s (lowerStr name))) = true := by
      simp only [fieldSynonyms, List.any_cons, List.any_nil, Bool.or_eq_true]
      exact Or.inr (Or.inr (Or.inl hurl))
    rw [mapColumn_eq_specMapColumn]
    simp only [specMapColumn, fieldOrder, List.find?_cons]
    by_cases h1 : ((fieldSynonyms Field.query).any
        (fun s => isSubstr s (lowerStr name))) = true
    · constructor
      · simp [h1]
      · intro hq hk
        exfalso
        simp [fieldSynonyms, hq, hk] at h1
    · have h1' : ((fieldSynonyms Field.query).any
          (fun s => isSubstr s (lowerStr name))) = false := by
        simpa using h1
      constructor
      · simp [h1', hpage]
      · intro _ _
        simp [h1', hpage]
  · intro name hctr
    rw [mapColumn_eq_specMapColumn] at hctr
    simp only [specMapColumn, fieldOrder, List.find?_cons] at hctr
    by_cases h1 : ((fieldSynonyms Field.query).any
        (fun s => isSubstr s (lowerStr name))) = true
    · simp [h1] at hctr
    have h1' := (Bool.not_eq_true _).mp h1
    by_cases h2 : ((fieldSynonyms Field.page).any
        (fun s => isSubstr s (lowerStr name))) = true
    · simp [h1', h2] at hctr
    have h2' := (Bool.not_eq_true _).mp h2
    by_cases h3 : ((fieldSynonyms Field.clicks).any
        (fun s => isSubstr s (lowerStr name))) = true
    · simp [h1', h2', h3] at hctr
    have h3' := (Bool.not_eq_true _).mp h3
    by_cases h4 : ((fieldSynonyms Field.impressions).any
        (fun s => isSubstr s (lowerStr name))) = true
    · simp [h1', h2', h3', h4] at hctr
    have h4' := (Bool.not_eq_true _).mp h4
    by_cases h5 : ((fieldSynonyms Field.ctr).any
        (fun s => isSubstr s (lowerStr name))) = true
    · obtain ⟨hq, hk⟩ : isSubstr "query" (lowerStr name) = false ∧
          isSubstr "keyword" (lowerStr name) = false := by
        simpa [fieldSynonyms, Bool.or_eq_false_iff] using h1'
      obtain ⟨hp, hlp, hu, ha⟩ : isSubstr "page" (lowerStr name) = false ∧
          isSubstr "landing page" (lowerStr name) = false ∧
          isSubstr "url" (lowerStr name) = false ∧
          isSubstr "address" (lowerStr name) = false := by
        simpa [fieldSynonyms, Bool.or_eq_false_iff] using h2'
      have hc : isSubstr "clicks" (lowerStr name) = false := by
        simpa [fieldSynonyms] using h3'
      have hi : isSubstr "impressions" (lowerStr name) = false := by
        simpa [fieldSynonyms] using h4'
      have hctrTrue : isSubstr "ctr" (lowerStr name) = true := by
        simp only [fieldSynonyms, List.any_cons, List.any_nil, Bool.or_false,
          Bool.or_eq_true] at h5
        rcases h5 with h | h
        · exact h
        · exact isSubstr_ctr_of_urlctr _ h
      exact ⟨hctrTrue, hq, hk, hp, hlp, hu, ha, hc, hi⟩
    · exfalso
      have h5' := (Bool.not_eq_true _).mp h5
      by_cases h6 : ((fieldSynonyms Field.position).any
          (fun s => isSubstr s (lowerStr name))) = true
      · simp [h1', h2', h3', h4', h5', h6] at hctr
      · have h6' := (Bool.not_eq_true _).mp h6
        simp [h1', h2', h3', h4', h5', h6'] at hctr

/-- C10, witness: the amended statement evaluated at the column
`"URL CTR"`. -/
theorem C10_witness :
    isSubstr "url" (lowerStr "URL CTR") = true ∧ ¬ mapColumn "URL CTR" = some Field.ctr :=
  ⟨by decide, (C10_theorem.1 "URL CTR" (by decide)).1⟩

/-! ## Deduplication lemmas (claim C7) -/

theorem mem_dedupRows_not_seen :
    ∀ (l : List Row) (seen : List (String × String)) (r : Row),
    r ∈ dedupRows seen l → rowKey r ∉ seen := by
  intro l
  induction l with
  | nil => intro seen r hr; simp [dedupRows] at hr
  | cons a as ih =>
    intro seen r hr
    rw [dedupRows] at hr
    by_cases ha : rowKey a ∈ seen
    · rw [if_pos ha] at hr
      exact ih seen r hr
    · rw [if_neg ha] at hr
      rcases List.mem_cons.mp hr with rfl | hr'
      · exact ha
      · have := ih _ r hr'
        intro hmem
        exact this (List.mem_cons_of_mem _ hmem)

theorem dedupRows_sublist :
    ∀ (l : List Row) (seen : List (String × String)),
    List.Sublist (dedupRows seen l) l := by
  intro l
  induction l with
  | nil => intro seen; simp [dedupRows]
  | cons a as ih =>
    intro seen
    rw [dedupRows]
    by_cases ha : rowKey a ∈ seen
    · rw [if_pos ha]
      exact List.Sublist.cons a (ih seen)
    · rw [if_neg ha]
      exact List.Sublist.cons₂ a (ih _)

theorem dedupRows_pairwise :
    ∀ (l : List Row) (seen : List (String × String)),
    List.Pairwise (fun a b => rowKey a ≠ rowKey b) (dedupRows seen l) := by
  intro l
  induction l with
  | nil => intro seen; simp [dedupRows]
  | cons a as ih =>
    intro seen
    rw [dedupRows]
    by_cases ha : rowKey a ∈ seen
    · rw [if_pos ha]
      exact ih seen
    · rw [if_neg ha]
      refine List.Pairwise.cons ?_ (ih _)
      intro b hb hab
      have := mem_dedupRows_not_seen _ _ _ hb
      exact this (hab ▸ List.mem_cons_self _ _)

theorem dedupRows_find? :
    ∀ (l : List Row) (seen : List (String × String)) (r' : Row),
    r' ∈ dedupRows seen l →
    l.find? (fun s => decide (rowKey s = rowKey r')) = some r' := by
  intro l
  induction l with
  | nil => intro seen r' hr'; simp [dedupRows] at hr'
  | cons a as ih =>
    intro seen r' hr'
    rw [dedupRows] at hr'
    by_cases ha : rowKey a ∈ seen
    · rw [if_pos ha] at hr'
      have hne : rowKey a ≠ rowKey r' := by
        intro he
        exact (mem_dedupRows_not_seen _ _ _ hr') (he ▸ ha)
      rw [List.find?_cons_of_neg _ (by simpa using hne)]
      exact ih seen r' hr'
    · rw [if_neg ha] at hr'
      rcases List.mem_cons.mp hr' with rfl | hr''
      · rw [List.find?_cons_of_pos _ (by simp)]
      · have hnotin := mem_dedupRows_not_seen _ _ _ hr''
        have hne : rowKey a ≠ rowKey r' := by
          intro he
          exact hnotin (he ▸ List.mem_cons_self _ _)
        rw [List.find?_cons_of_neg _ (by simpa using hne)]
        exact ih _ r' hr''

theorem dedupRows_complete :
    ∀ (l : List Row) (seen : List (String × String)) (r : Row),
    r ∈ l → rowKey r ∉ seen →
    ∃ r' ∈ dedupRows seen l, rowKey r' = rowKey r := by
  intro l
  induction l with
  | nil => intro seen r hr; simp at hr
  | cons a as ih =>
    intro seen r hr hseen
    rw [dedupRows]
    by_cases ha : rowKey a ∈ seen
    · rw [if_pos ha]
      rcases List.mem_cons.mp hr with rfl | hr'
      · exact absurd ha hseen
      · exact ih seen r hr' hseen
    · rw [if_neg ha]
      rcases List.mem_cons.mp hr with rfl | hr'
      · exact ⟨_, List.mem_cons_self _ _, rfl⟩
      · by_cases hk : rowKey r = rowKey a
        · exact ⟨a, List.mem_cons_self _ _, hk.symm⟩
        · obtain ⟨r', hr'', hk'⟩ := ih (rowKey a :: seen) r hr' (by
            intro hmem
            rcases List.mem_cons.mp hmem with he | hmem'
            · exact hk he
            · exact hseen hmem')
          exact ⟨r', List.mem_cons_of_mem _ hr'', hk'⟩

theorem ctrColumn_length (rawRows : List RawRow) :
    (ctrColumn rawRows).length = rawRows.length := by
  rw [ctrColumn]
  split
  · simp
  · dsimp only
    split <;> simp

theorem transform_map_key (rawRows : List RawRow) :
    (transform rawRows).map rowKey = rawRows.map (fun r => (r.query, r.page)) := by
  have hstep : (transform rawRows).map rowKey
      = ((rawRows.zip (ctrColumn rawRows)).map Prod.fst).map
          (fun r => (r.query, r.page)) := by
    simp only [transform, List.map_map]
    rfl
  rw [hstep,
    List.map_fst_zip rawRows (ctrColumn rawRows) (le_of_eq (ctrColumn_length rawRows).symm)]

/-! ## Claim C7 -/

/-- C7: after normalization no two records share a `(query, page)` key; the
normalized table is a subsequence of the transformed input; each surviving
record is the FIRST transformed row bearing its key; every input key
survives; the transformation stage preserves keys and order; and the
Scenario A table of two identical rows normalizes to a single row. -/
theorem C7_theorem :
    (∀ rawRows : List RawRow,
      List.Pairwise (fun a b => rowKey a ≠ rowKey b) (prepareRows rawRows) ∧
      List.Sublist (prepareRows rawRows) (transform rawRows) ∧
      (∀ r' ∈ prepareRows rawRows,
        (transform rawRows).find? (fun s => decide (rowKey s = rowKey r')) = some r') ∧
      (∀ r ∈ transform rawRows, ∃ r' ∈ prepareRows rawRows, rowKey r' = rowKey r) ∧
      (transform rawRows).map rowKey = rawRows.map (fun r => (r.query, r.page))) ∧
    (prepareRows [sampleShoe, sampleShoe]).length = 1 := by
  constructor
  · intro rawRows
    refine ⟨dedupRows_pairwise _ _, dedupRows_sublist _ _, ?_, ?_, transform_map_key rawRows⟩
    · intro r' hr'
      exact dedupRows_find? _ _ _ hr'
    · intro r hr
      exact dedupRows_complete _ _ _ hr (by simp)
  · norm_num [prepareRows, transform, ctrColumn, sampleShoe, Cell.isna, cellNum,
      ctrScaleCond, List.maximum_cons, dedupRows, rowKey]

/-- C7, witness: the invariant evaluated on the Scenario A table. -/
theorem C7_witness :
    List.Pairwise (fun a b => rowKey a ≠ rowKey b) (prepareRows [sampleShoe, sampleShoe]) :=
  (C7_theorem.1 [sampleShoe, sampleShoe]).1

/-! ## CTR rescaling (claim C6) -/

theorem ctrScaleCond_iff (vals : List ℚ) :
    ctrScaleCond vals = true ↔ ∃ v ∈ vals, 1 < v := by
  cases hm : vals.maximum with
  | bot =>
    rw [ctrScaleCond, hm]
    show (false = true) ↔ _
    simp only [Bool.false_eq_true, false_iff]
    rintro ⟨v, hv, _⟩
    rw [List.maximum_eq_bot.mp hm] at hv
    exact (List.not_mem_nil v) hv
  | coe m =>
    rw [ctrScaleCond, hm]
    show (decide (1 < m) = true) ↔ _
    simp only [decide_eq_true_eq]
    constructor
    · intro h1m
      exact ⟨m, List.maximum_mem hm, h1m⟩
    · rintro ⟨v, hv, h1v⟩
      have hvm : v ≤ m := List.le_maximum_of_mem hv hm
      exact lt_of_lt_of_le h1v hvm

theorem transform_map_ctr (rawRows : List RawRow) :
    (transform rawRows).map Row.ctr = ctrColumn rawRows := by
  have hstep : (transform rawRows).map Row.ctr
      = (rawRows.zip (ctrColumn rawRows)).map Prod.snd := by
    simp only [transform, List.map_map]
    rfl
  rw [hstep,
    List.map_snd_zip rawRows (ctrColumn rawRows) (le_of_eq (ctrColumn_length rawRows))]

/-! ## Claim C6 -/

/-- C6: when the mapped ctr column is not entirely missing, the normalized
ctr column is the coerced column (NaN/text cells to 0), divided entrywise by
100 exactly when the column's maximum exceeds 1 — equivalently when some
coerced value exceeds 1, a single table-wide decision; and the Scenario C
column `[1.2, 3.4]` becomes `[0.012, 0.034]`. -/
theorem C6_theorem :
    (∀ rawRows : List RawRow, ¬ (rawRows.all (fun r => r.ctr.isna)) = true →
      ((ctrScaleCond (rawRows.map (fun r => cellNum r.ctr)) = true ↔
          ∃ v ∈ rawRows.map (fun r => cellNum r.ctr), 1 < v) ∧
        ctrColumn rawRows =
          (if ctrScaleCond (rawRows.map (fun r => cellNum r.ctr)) = true
           then (rawRows.map (fun r => cellNum r.ctr)).map (fun v => v / 100)
           else rawRows.map (fun r => cellNum r.ctr)) ∧
        (transform rawRows).map Row.ctr = ctrColumn rawRows)) ∧
    cellNum Cell.missing = 0 ∧ cellNum Cell.bad = 0 ∧
    (prepareRows [sampleCtrA, sampleCtrB]).map Row.ctr = [0.012, 0.034] := by
  refine ⟨?_, rfl, rfl, ?_⟩
  · intro rawRows hna
    refine ⟨ctrScaleCond_iff _, ?_, transform_map_ctr rawRows⟩
    rw [ctrColumn, if_neg hna]
  · norm_num +decide [prepareRows, transform, ctrColumn, sampleCtrA, sampleCtrB,
      Cell.isna, cellNum, ctrScaleCond, List.maximum_cons, dedupRows, rowKey]

/-- C6, witness: the rescaling facts evaluated on the Scenario C table. -/
theorem C6_witness :
    ¬ ([sampleCtrA, sampleCtrB].all (fun r => r.ctr.isna)) = true ∧
    (transform [sampleCtrA, sampleCtrB]).map Row.ctr = ctrColumn [sampleCtrA, sampleCtrB] :=
  ⟨by decide, (C6_theorem.1 [sampleCtrA, sampleCtrB] (by decide)).2.2⟩

/-! ## Bounds on the derived ctr column (claim C5) -/

theorem ctrColumn_bounds (rawRows : List RawRow)
    (h : ∀ r ∈ rawRows,
      (∃ n : ℕ, cellNum r.clicks = (n : ℚ)) ∧
      (∃ n : ℕ, cellNum r.impressions = (n : ℚ)) ∧
      cellNum r.clicks ≤ cellNum r.impressions ∧
      0 ≤ cellNum r.position ∧
      0 ≤ cellNum r.ctr ∧ cellNum r.ctr ≤ 100) :
    ∀ c ∈ ctrColumn rawRows, 0 ≤ c ∧ c ≤ 1 := by
  intro c hc
  rw [ctrColumn] at hc
  by_cases hna : (rawRows.all (fun r => r.ctr.isna)) = true
  · rw [if_pos hna] at hc
    obtain ⟨r, hr, rfl⟩ := List.mem_map.mp hc
    obtain ⟨⟨nc, hnc⟩, ⟨ni, hni⟩, hle, -, -, -⟩ := h r hr
    dsimp only
    by_cases hz : cellNum r.impressions = 0
    · rw [if_pos hz]
      norm_num
    · rw [if_neg hz]
      have hcl : (0 : ℚ) ≤ cellNum r.clicks := by
        rw [hnc]; positivity
      have himp : (0 : ℚ) < cellNum r.impressions := by
        rcases lt_or_eq_of_le (by rw [hni]; positivity :
          (0 : ℚ) ≤ cellNum r.impressions) with hlt | heq
        · exact hlt
        · exact absurd heq.symm hz
      exact ⟨div_nonneg hcl (le_of_lt himp), (div_le_one himp).mpr hle⟩
  · rw [if_neg hna] at hc
    dsimp only at hc
    by_cases hcond : ctrScaleCond (rawRows.map (fun r => cellNum r.ctr)) = true
    · rw [if_pos hcond] at hc
      obtain ⟨v, hv, rfl⟩ := List.mem_map.mp hc
      obtain ⟨r, hr, rfl⟩ := List.mem_map.mp hv
      obtain ⟨-, -, -, -, h0, h100⟩ := h r hr
      constructor
      · exact div_nonneg h0 (by norm_num)
      · rw [div_le_one (by norm_num : (0:ℚ) < 100)]
        exact h100
    · rw [if_neg hcond] at hc
      obtain ⟨r, hr, rfl⟩ := List.mem_map.mp hc
      obtain ⟨-, -, -, -, h0, -⟩ := h r hr
      refine ⟨h0, ?_⟩
      by_contra hgt
      push_neg at hgt
      exact hcond ((ctrScaleCond_iff _).mpr
        ⟨cellNum r.ctr, List.mem_map.mpr ⟨r, hr, rfl⟩, hgt⟩)

/-! ## Claim C5 -/

/-- C5, counterexample: `normalize` accepts a table whose clicks cell parses
to `-5` and keeps the negative value, refuting the claimed non-negativity of
every accepted table's records. -/
theorem C5_counterexample :
    (prepareRows [sampleNeg]).map Row.clicks = [(-5 : ℚ)] ∧ ¬ (0 : ℚ) ≤ (-5 : ℚ) := by
  constructor
  · norm_num +decide [prepareRows, transform, ctrColumn, sampleNeg, Cell.isna,
      cellNum, dedupRows, rowKey]
  · norm_num

/-- C5, amended: when every raw row parses to a non-negative integer click
and impression count with clicks ≤ impressions, a non-negative position,
and a ctr value in `[0, 100]`, every normalized record has non-negative
integer clicks and impressions, `ctr ∈ [0, 1]` and non-negative position.
(Without these preconditions the source keeps negative or fractional
values unchanged.) -/
theorem C5_theorem (rawRows : List RawRow)
    (h : ∀ r ∈ rawRows,
      (∃ n : ℕ, cellNum r.clicks = (n : ℚ)) ∧
      (∃ n : ℕ, cellNum r.impressions = (n : ℚ)) ∧
      cellNum r.clicks ≤ cellNum r.impressions ∧
      0 ≤ cellNum r.position ∧
      0 ≤ cellNum r.ctr ∧ cellNum r.ctr ≤ 100) :
    ∀ row ∈ prepareRows rawRows,
      (∃ n : ℕ, row.clicks = (n : ℚ)) ∧
      (∃ n : ℕ, row.impressions = (n : ℚ)) ∧
      0 ≤ row.ctr ∧ row.ctr ≤ 1 ∧
      0 ≤ row.position := by
  intro row hrow
  have hrow' : row ∈ transform rawRows := by
    rw [prepareRows] at hrow
    exact (dedupRows_sublist _ _).subset hrow
  rw [transform] at hrow'
  obtain ⟨rc, hrc, rfl⟩ := List.mem_map.mp hrow'
  obtain ⟨hr, hcmem⟩ := List.of_mem_zip hrc
  obtain ⟨⟨nc, hnc⟩, ⟨ni, hni⟩, -, hpos, -, -⟩ := h rc.1 hr
  obtain ⟨h0c, h1c⟩ := ctrColumn_bounds rawRows h rc.2 hcmem
  exact ⟨⟨nc, hnc⟩, ⟨ni, hni⟩, h0c, h1c, hpos⟩

/-- C5, witness: the amended record invariant evaluated on a one-row
well-formed table. -/
theorem C5_witness :
    (∀ r ∈ [sampleOk],
      (∃ n : ℕ, cellNum r.clicks = (n : ℚ)) ∧
      (∃ n : ℕ, cellNum r.impressions = (n : ℚ)) ∧
      cellNum r.clicks ≤ cellNum r.impressions ∧
      0 ≤ cellNum r.position ∧
      0 ≤ cellNum r.ctr ∧ cellNum r.ctr ≤ 100) ∧
    (∀ row ∈ prepareRows [sampleOk],
      (∃ n : ℕ, row.clicks = (n : ℚ)) ∧
      (∃ n : ℕ, row.impressions = (n : ℚ)) ∧
      0 ≤ row.ctr ∧ row.ctr ≤ 1 ∧
      0 ≤ row.position) := by
  have h : ∀ r ∈ [sampleOk],
      (∃ n : ℕ, cellNum r.clicks = (n : ℚ)) ∧
      (∃ n : ℕ, cellNum r.impressions = (n : ℚ)) ∧
      cellNum r.clicks ≤ cellNum r.impressions ∧
      0 ≤ cellNum r.position ∧
      0 ≤ cellNum r.ctr ∧ cellNum r.ctr ≤ 100 := by
    intro r hr
    rw [List.mem_singleton] at hr
    subst hr
    refine ⟨⟨2, by norm_num [sampleOk, cellNum]⟩, ⟨4, by norm_num [sampleOk, cellNum]⟩,
      by norm_num [sampleOk, cellNum], by norm_num [sampleOk, cellNum],
      by norm_num [sampleOk, cellNum], by norm_num [sampleOk, cellNum]⟩
  exact ⟨h, C5_theorem [sampleOk] h⟩

/-! ## Aggregated-group CTR bounds (claim C4) -/

theorem aggregateBy_mem_spec (keyOf : Row → String) (rows : List Row) (g : Agg)
    (hg : g ∈ aggregateBy keyOf rows) :
    ∃ k, g.clicks = ((rows.filter (fun r => keyOf r = k)).map Row.clicks).sum ∧
      g.impressions = ((rows.filter (fun r => keyOf r = k)).map Row.impressions).sum := by
  rw [aggregateBy] at hg
  obtain ⟨k, hk, rfl⟩ := List.mem_map.mp hg
  exact ⟨k, rfl, rfl⟩

theorem aggCtr_bounds_of (keyOf : Row → String) (rows : List Row)
    (h : ∀ r ∈ rows, 0 ≤ r.clicks ∧ r.clicks ≤ r.impressions) :
    ∀ g ∈ aggregateBy keyOf rows, 0 ≤ aggCtr g ∧ aggCtr g ≤ 1 := by
  intro g hg
  obtain ⟨k, hc, hi⟩ := aggregateBy_mem_spec keyOf rows g hg
  have hmem : ∀ r ∈ rows.filter (fun r => keyOf r = k), r ∈ rows := by
    intro r hr
    exact (List.mem_filter.mp hr).1
  have h0 : 0 ≤ g.clicks := by
    rw [hc]
    apply List.sum_nonneg
    intro x hx
    obtain ⟨r, hr, rfl⟩ := List.mem_map.mp hx
    exact (h r (hmem r hr)).1
  have hle : g.clicks ≤ g.impressions := by
    rw [hc, hi]
    apply List.sum_le_sum
    intro r hr
    exact (h r (hmem r hr)).2
  have h0i : 0 ≤ g.impressions := le_trans h0 hle
  rw [aggCtr]
  by_cases hz : g.impressions = 0
  · rw [if_pos hz]
    norm_num
  · rw [if_neg hz]
    have hpos : 0 < g.impressions := lt_of_le_of_ne h0i (Ne.symm hz)
    exact ⟨div_nonneg h0 h0i, (div_le_one hpos).mpr hle⟩

/-! ## Claim C4 -/

/-- C4, counterexample: a one-row table with non-negative clicks `5` and
impressions `2` (nothing forces clicks ≤ impressions) aggregates to a page
group with recomputed CTR `5/2 > 1`. -/
theorem C4_counterexample :
    (∀ r ∈ [rowOverCtr], 0 ≤ r.clicks ∧ 0 ≤ r.impressions) ∧
    (pageStats [rowOverCtr]).map aggCtr = [(5 : ℚ) / 2] ∧
    ¬ ((5 : ℚ) / 2 ≤ 1) := by
  refine ⟨?_, ?_, by norm_num⟩
  · intro r hr
    rw [List.mem_singleton] at hr
    subst hr
    norm_num [rowOverCtr]
  · norm_num +decide [pageStats, aggregateBy, distinctKeys, distinctKeysAux,
      aggCtr, rowOverCtr]

/-- C4, amended: when every row additionally satisfies clicks ≤ impressions
(true of genuine GSC data), the recomputed group CTR lies in `[0, 1]` in
both the query aggregation and the page aggregation; non-negativity of both
fields alone does not suffice. -/
theorem C4_theorem (rows : List Row)
    (h : ∀ r ∈ rows, 0 ≤ r.clicks ∧ r.clicks ≤ r.impressions) :
    ∀ g, (g ∈ queryStats rows ∨ g ∈ pageStats rows) →
      0 ≤ aggCtr g ∧ aggCtr g ≤ 1 := by
  intro g hg
  rcases hg with hq | hp
  · exact aggCtr_bounds_of _ rows h g hq
  · exact aggCtr_bounds_of _ rows h g hp

/-- C4, witness: the CTR bound evaluated on a one-row table with clicks 1
and impressions 2. -/
theorem C4_witness :
    (∀ r ∈ [rowUnit], 0 ≤ r.clicks ∧ r.clicks ≤ r.impressions) ∧
    (∀ g, (g ∈ queryStats [rowUnit] ∨ g ∈ pageStats [rowUnit]) →
      0 ≤ aggCtr g ∧ aggCtr g ≤ 1) := by
  have h : ∀ r ∈ [rowUnit], 0 ≤ r.clicks ∧ r.clicks ≤ r.impressions := by
    intro r hr
    rw [List.mem_singleton] at hr
    subst hr
    norm_num [rowUnit]
  exact ⟨h, C4_theorem [rowUnit] h⟩

/-! ## Claim C3 -/

/-- C3, counterexample: under the default thresholds (which satisfy
`weak ≤ good ≤ top`), the one-page table with `0 < clicks = 5 < weak = 10`
produces a page that lies in NONE of top, good, weak, dead — so the union
of the four buckets is not the set of all pages. -/
theorem C3_counterexample :
    defaultThresholds.weak ≤ defaultThresholds.good ∧
    defaultThresholds.good ≤ defaultThresholds.top ∧
    topUrls defaultThresholds (pageStats [rowFewClicks]) = [] ∧
    goodUrls defaultThresholds (pageStats [rowFewClicks]) = [] ∧
    weakUrls defaultThresholds (pageStats [rowFewClicks]) = [] ∧
    deadUrls (pageStats [rowFewClicks]) = [] ∧
    (pageStats [rowFewClicks]).length = 1 := by
  refine ⟨by norm_num [defaultThresholds], by norm_num [defaultThresholds],
    ?_, ?_, ?_, ?_, ?_⟩ <;>
    norm_num +decide [topUrls, goodUrls, weakUrls, deadUrls, pageStats, aggregateBy,
      distinctKeys, distinctKeysAux, rowFewClicks, defaultThresholds]

/-- C3, amended: for positive, ordered thresholds `0 < weak ≤ good ≤ top`,
each aggregated page lies in one of top/good/weak/dead exactly when its
clicks are 0 or at least `weak` (pages with `0 < clicks < weak` fall in no
bucket); top, good, weak are pairwise disjoint and disjoint from dead;
opportunity is contained in dead; and a dead page is an opportunity exactly
when it has impressions (Scenario D). -/
theorem C3_theorem (rows : List Row) (ths : Thresholds) (g : Agg)
    (hw : 0 < ths.weak) (hwg : ths.weak ≤ ths.good) (hgt : ths.good ≤ ths.top)
    (hg : g ∈ pageStats rows) :
    ((g ∈ topUrls ths (pageStats rows) ∨ g ∈ goodUrls ths (pageStats rows) ∨
        g ∈ weakUrls ths (pageStats rows) ∨ g ∈ deadUrls (pageStats rows)) ↔
      (g.clicks = 0 ∨ ths.weak ≤ g.clicks)) ∧
    (g ∈ topUrls ths (pageStats rows) →
      ¬ g ∈ goodUrls ths (pageStats rows) ∧ ¬ g ∈ weakUrls ths (pageStats rows) ∧
      ¬ g ∈ deadUrls (pageStats rows)) ∧
    (g ∈ goodUrls ths (pageStats rows) →
      ¬ g ∈ weakUrls ths (pageStats rows) ∧ ¬ g ∈ deadUrls (pageStats rows)) ∧
    (g ∈ weakUrls ths (pageStats rows) → ¬ g ∈ deadUrls (pageStats rows)) ∧
    (g ∈ opportunityUrls (pageStats rows) → g ∈ deadUrls (pageStats rows)) ∧
    (g.clicks = 0 → g ∈ deadUrls (pageStats rows) ∧
      (g ∈ opportunityUrls (pageStats rows) ↔ 0 < g.impressions)) := by
  simp only [topUrls, goodUrls, weakUrls, deadUrls, opportunityUrls, List.mem_filter,
    decide_eq_true_eq, hg, true_and]
  refine ⟨⟨?_, ?_⟩, ?_, ?_, ?_, ?_, ?_⟩
  · rintro (h | ⟨h1, h2⟩ | ⟨h1, h2⟩ | h)
    · exact Or.inr (le_trans hwg (le_trans hgt h))
    · exact Or.inr (le_trans hwg h1)
    · exact Or.inr h1
    · exact Or.inl h
  · rintro (h0 | hwle)
    · exact Or.inr (Or.inr (Or.inr h0))
    · by_cases htop : ths.top ≤ g.clicks
      · exact Or.inl htop
      · push_neg at htop
        by_cases hgood : ths.good ≤ g.clicks
        · exact Or.inr (Or.inl ⟨hgood, htop⟩)
        · push_neg at hgood
          exact Or.inr (Or.inr (Or.inl ⟨hwle, hgood⟩))
  · intro htop
    refine ⟨?_, ?_, ?_⟩
    · rintro ⟨-, hlt⟩
      linarith
    · rintro ⟨-, hlt⟩
      linarith
    · intro h0
      linarith
  · rintro ⟨hgood, hlt⟩
    refine ⟨?_, ?_⟩
    · rintro ⟨-, hlt2⟩
      linarith
    · intro h0
      linarith
  · rintro ⟨hwle, -⟩ h0
    linarith
  · rintro ⟨h0, -⟩
    exact h0
  · intro h0
    refine ⟨h0, ?_, ?_⟩
    · rintro ⟨-, himp⟩
      exact himp
    · intro himp
      exact ⟨h0, himp⟩

/-- C3, witness: the Scenario D group (clicks 0, impressions 500) is dead
and is an opportunity, via the amended theorem at the default thresholds. -/
theorem C3_witness :
    aggDeadOpp ∈ deadUrls (pageStats [rowDeadOpp]) ∧
    (aggDeadOpp ∈ opportunityUrls (pageStats [rowDeadOpp]) ↔ 0 < aggDeadOpp.impressions) := by
  have hg : aggDeadOpp ∈ pageStats [rowDeadOpp] := by
    norm_num +decide [pageStats, aggregateBy, distinctKeys, distinctKeysAux,
      rowDeadOpp, aggDeadOpp]
  exact (C3_theorem [rowDeadOpp] defaultThresholds aggDeadOpp
    (by norm_num [defaultThresholds]) (by norm_num [defaultThresholds])
    (by norm_num [defaultThresholds]) hg).2.2.2.2.2 (by norm_num [aggDeadOpp])

/-! ## Success and failure of the percentage computations (claims C2, C9) -/

theorem pctOf_ok (c t : ℕ) (h : t ≠ 0) :
    pctOf c t = .ok ((c : ℚ) / (t : ℚ) * 100) := by
  have ht : ((t : ℕ) : ℚ) ≠ 0 := Nat.cast_ne_zero.mpr h
  simp [pctOf, pydiv, ht]

theorem aggregateBy_ne_nil (keyOf : Row → String) (rows : List Row) (h : rows ≠ []) :
    aggregateBy keyOf rows ≠ [] := by
  cases rows with
  | nil => exact absurd rfl h
  | cons r rs => simp [aggregateBy, distinctKeys, distinctKeysAux]

theorem query_analysis_ok (rows : List Row) (h : rows ≠ []) :
    ∃ q, query_analysis rows = .ok q := by
  have ht : (queryStats rows).length ≠ 0 := fun h0 =>
    aggregateBy_ne_nil (fun r => r.query) rows h (List.length_eq_zero.mp h0)
  rw [query_analysis]
  simp only [pctOf_ok _ _ ht]
  exact ⟨_, rfl⟩

theorem url_analysis_ok (rows : List Row) (h : rows ≠ []) :
    ∃ u, url_analysis rows = .ok u := by
  have ht : (pageStats rows).length ≠ 0 := fun h0 =>
    aggregateBy_ne_nil (fun r => r.page) rows h (List.length_eq_zero.mp h0)
  rw [url_analysis]
  simp only [pctOf_ok _ _ ht]
  exact ⟨_, rfl⟩

theorem url_performance_analysis_ok (ths : Thresholds) (rows : List Row) (h : rows ≠ []) :
    ∃ p, url_performance_analysis ths rows = .ok p := by
  have ht : (pageStats rows).length ≠ 0 := fun h0 =>
    aggregateBy_ne_nil (fun r => r.page) rows h (List.length_eq_zero.mp h0)
  rw [url_performance_analysis]
  simp only [pctOf_ok _ _ ht]
  exact ⟨_, rfl⟩

/-! ## Claim C2 -/

/-- C2: on the empty normalized table (total_queries = total_urls = 0) every
analysis operation raises `ZeroDivisionError` while computing its first
percentage, instead of returning zero percentages as specified — the
percentage divisions are unguarded plain divisions. -/
theorem C2_theorem :
    query_analysis [] = .error "ZeroDivisionError" ∧
    url_analysis [] = .error "ZeroDivisionError" ∧
    url_performance_analysis defaultThresholds [] = .error "ZeroDivisionError" ∧
    generate_insights [] = .error "ZeroDivisionError" :=
  ⟨rfl, rfl, rfl, rfl⟩

/-! ## Claim C9 -/

/-- C9, counterexample: on the empty normalized table `generate_insights`
raises `ZeroDivisionError` (through the percentage computations of the
analyses it runs) instead of returning a 0-to-3 element recommendation
list, refuting the claim's "for every normalized table". -/
theorem C9_counterexample :
    generate_insights [] = .error "ZeroDivisionError" := rfl

/-- C9, amended: for every NON-EMPTY normalized table the three analyses
succeed and the recommendation list is exactly the concatenation, in fixed
order and without deduplication, of the three independent rules — high
opportunity when the default-threshold opportunity percentage exceeds 10,
CTR review when some query has ≥ 100 clicks and CTR < 1%, and content
pruning when the dead percentage exceeds 20 — so it has 0 to 3 entries. -/
theorem C9_theorem (rows : List Row) (h : rows ≠ []) :
    ∃ q u p,
      query_analysis rows = .ok q ∧
      url_analysis rows = .ok u ∧
      url_performance_analysis defaultThresholds rows = .ok p ∧
      (generate_insights rows).map Insights.recommendations = .ok
        ((if 10 < p.pct_opportunity_urls then
            [Recommendation.highOpportunity p.pct_opportunity_urls] else []) ++
          (if 0 < q.queries_100clicks_1pct_ctr then
            [Recommendation.lowCtrQueries q.queries_100clicks_1pct_ctr] else []) ++
          (if 20 < p.pct_dead_urls then
            [Recommendation.deadUrls p.pct_dead_urls] else [])) ∧
      ((if 10 < p.pct_opportunity_urls then
          [Recommendation.highOpportunity p.pct_opportunity_urls] else []) ++
        (if 0 < q.queries_100clicks_1pct_ctr then
          [Recommendation.lowCtrQueries q.queries_100clicks_1pct_ctr] else []) ++
        (if 20 < p.pct_dead_urls then
          [Recommendation.deadUrls p.pct_dead_urls] else [])).length ≤ 3 := by
  obtain ⟨q, hq⟩ := query_analysis_ok rows h
  obtain ⟨u, hu⟩ := url_analysis_ok rows h
  obtain ⟨p, hp⟩ := url_performance_analysis_ok defaultThresholds rows h
  refine ⟨q, u, p, hq, hu, hp, ?_, ?_⟩
  · simp only [generate_insights, hq, hu, hp]
    rfl
  · split_ifs <;> simp

/-- C9, witness: the rule evaluation on a concrete one-row table. -/
theorem C9_witness :
    ([rowUnit] : List Row) ≠ [] ∧
    ∃ q u p,
      query_analysis [rowUnit] = .ok q ∧
      url_analysis [rowUnit] = .ok u ∧
      url_performance_analysis defaultThresholds [rowUnit] = .ok p ∧
      (generate_insights [rowUnit]).map Insights.recommendations = .ok
        ((if 10 < p.pct_opportunity_urls then
            [Recommendation.highOpportunity p.pct_opportunity_urls] else []) ++
          (if 0 < q.queries_100clicks_1pct_ctr then
            [Recommendation.lowCtrQueries q.queries_100clicks_1pct_ctr] else []) ++
          (if 20 < p.pct_dead_urls then
            [Recommendation.deadUrls p.pct_dead_urls] else [])) ∧
      ((if 10 < p.pct_opportunity_urls then
          [Recommendation.highOpportunity p.pct_opportunity_urls] else []) ++
        (if 0 < q.queries_100clicks_1pct_ctr then
          [Recommendation.lowCtrQueries q.queries_100clicks_1pct_ctr] else []) ++
        (if 20 < p.pct_dead_urls then
          [Recommendation.deadUrls p.pct_dead_urls] else [])).length ≤ 3 :=
  ⟨by simp, C9_theorem [rowUnit] (by simp)⟩

end GSC
